import Mathlib

/-!
Verification development for the ros2msg_to_rs schema compiler
(src/parser.rs, src/generator.rs, src/main.rs).

The parser (a nom-based recursive-descent parser over `&str`) is embedded
as total functions over `List Char`.  A parser outcome is one of:
* `POut.ok rest v` — nom `Ok((rest, v))`;
* `POut.err pos`  — a nom `Err(VerboseError)`; we keep the remaining input
  at the point of failure (the offending position).  The human-readable
  stack of expected alternatives carried by `VerboseError` is abstracted.
* `POut.panic`    — a Rust panic (`todo!()` / `unreachable!()`); panics
  unwind through `alt`, unlike nom errors.

The generator is embedded as pure functions returning the updated
`Generator` state, the list of warnings printed (`println!`), and either
the produced text or the message of a Rust `panic!`.
-/

set_option maxHeartbeats 1000000
set_option maxRecDepth 4096

namespace R2M

/-! ## Parser data model (src/parser.rs lines 22-88) -/

/-- `enum Value` (parser.rs lines 42-49).  `Float` holds a Rust `f64`;
we model it with Lean's `Float`.  No theorem below inspects a float. -/
inductive Value where
  | Bool (b : Bool)
  | String (s : String)
  | Float (f : Float)
  | Uint (n : Nat)
  | Int (n : Int)
  | Array (l : List Value)

/-- `enum ValueType` (parser.rs lines 36-39). -/
inductive ValueType where
  | Const (v : Value)
  | Default (v : Value)

/-- `enum ArrayInfo` (parser.rs lines 83-88). -/
inductive ArrayInfo where
  | NotArray
  | Dynamic
  | Static (n : Nat)
  | Limited (n : Nat)

/-- `enum TypeName` (parser.rs lines 65-80).  The Rust variant `Type` is
renamed `Type_` because `Type` is reserved in Lean. -/
inductive TypeName where
  | Type_ (type_name : String) (array_info : ArrayInfo)
  | ScopedType (scope : String) (type_name : String) (array_info : ArrayInfo)
  | LimitedString (size : Nat) (array_info : ArrayInfo)
  | String (array_info : ArrayInfo)

/-- `enum Expr` (parser.rs lines 22-33). -/
inductive Expr where
  | Variable (type_name : TypeName) (var_name : String)
      (value : Option ValueType) (comment : Option String)
  | Empty
  | Comment
  | Eof

/-! ## Parser outcomes and combinators -/

/-- Outcome of running a nom parser (see the file comment). -/
inductive POut (α : Type) where
  | ok (rest : List Char) (val : α)
  | err (pos : List Char)
  | panic

/-- A parser over the remaining input. -/
def Parser (α : Type) : Type := List Char → POut α

/-- Sequencing used for Rust's `let (input, x) = p(input)?;`. -/
def pbind (r : POut α) (f : List Char → α → POut β) : POut β :=
  match r with
  | .ok i v => f i v
  | .err e => .err e
  | .panic => .panic

/-- nom `alt` of two parsers: errors fall through to the second branch
(the error finally reported is the last branch's), panics do not. -/
def palt (p q : Parser α) : Parser α := fun i =>
  match p i with
  | .ok r v => .ok r v
  | .panic => .panic
  | .err _ => q i

/-- nom `space0`: `' '` and `'\t'`. -/
def isSpaceChar (c : Char) : Bool := c = ' ' || c = '\t'

/-- nom `space0` — never fails. -/
def space0 : Parser Unit := fun i => .ok (i.dropWhile isSpaceChar) ()

/-- nom `space1` — requires at least one space. -/
def space1 : Parser Unit := fun i =>
  match i with
  | [] => .err []
  | c :: r =>
    if isSpaceChar c then .ok ((c :: r).dropWhile isSpaceChar) () else .err (c :: r)

/-- nom `tag s`. -/
def tagP (s : List Char) : Parser (List Char) := fun i =>
  if s.isPrefixOf i then .ok (i.drop s.length) s else .err i

/-- nom `peek p`: run `p` but do not consume. -/
def peekP (p : Parser α) : Parser α := fun i =>
  match p i with
  | .ok _ v => .ok i v
  | .err e => .err e
  | .panic => .panic

/-- `peek_tag` (parser.rs lines 329-331). -/
def peek_tag (s : List Char) : Parser (List Char) := peekP (tagP s)

/-- nom `one_of`. -/
def one_of (s : List Char) : Parser Char := fun i =>
  match i with
  | [] => .err []
  | c :: r => if c ∈ s then .ok r c else .err (c :: r)

/-- nom `anychar`. -/
def anychar : Parser Char := fun i =>
  match i with
  | [] => .err []
  | c :: r => .ok r c

/-- nom `satisfy`. -/
def satisfyP (f : Char → Bool) : Parser Char := fun i =>
  match i with
  | [] => .err []
  | c :: r => if f c then .ok r c else .err (c :: r)

/-- nom `line_ending`: `"\n"` or `"\r\n"`. -/
def line_ending : Parser Unit := fun i =>
  match i with
  | '\n' :: r => .ok r ()
  | '\r' :: '\n' :: r => .ok r ()
  | _ => .err i

/-- nom complete `not_line_ending`: consume everything up to `'\r'`/`'\n'`;
a lone `'\r'` not followed by `'\n'` is an error. -/
def not_line_ending : Parser String := fun i =>
  let keep : Char → Bool := fun c => !(c = '\r' || c = '\n')
  let rest := i.dropWhile keep
  match rest with
  | '\r' :: t =>
    match t with
    | '\n' :: _ => .ok rest ⟨i.takeWhile keep⟩
    | _ => .err i
  | _ => .ok rest ⟨i.takeWhile keep⟩

/-- nom `character::complete::u64`: one or more ASCII digits, with an
overflow check against `u64::MAX`. -/
def u64P : Parser Nat := fun i =>
  let ds := i.takeWhile Char.isDigit
  if ds.isEmpty then .err i
  else
    let n := ds.foldl (fun a c => a * 10 + (c.toNat - 48)) 0
    if n < 2 ^ 64 then .ok (i.drop ds.length) n else .err i

/-- nom `is_digit(c as u8)`: the byte test after Rust's `as u8` truncation. -/
def isDigitByte (c : Char) : Bool :=
  48 ≤ c.toNat % 256 && c.toNat % 256 ≤ 57

/-- nom `is_alphanumeric(c as u8)` after `as u8` truncation. -/
def isAlphanumericByte (c : Char) : Bool :=
  let b := c.toNat % 256
  (48 ≤ b && b ≤ 57) || (65 ≤ b && b ≤ 90) || (97 ≤ b && b ≤ 122)

/-- `digit` (parser.rs lines 337-339). -/
def digit : Parser Char := satisfyP isDigitByte

/-- `peek_next_of` (parser.rs lines 333-335). -/
def peek_next_of : Parser Char :=
  peekP (palt (one_of ['=', '-', '"', '\'', '[', 't', 'f']) digit)

/-- nom `alpha1`: one or more ASCII letters. -/
def alpha1 : Parser (List Char) := fun i =>
  let ls := i.takeWhile Char.isAlpha
  if ls.isEmpty then .err i else .ok (i.drop ls.length) ls

/-- `parse_identifier` (parser.rs lines 290-299):
`alt((tag "_", alpha1))` then `many0 (satisfy (is_alphanumeric ∨ '_'))`. -/
def parse_identifier : Parser String := fun i =>
  match palt (tagP ['_']) alpha1 i with
  | .ok r hd =>
    let tl := r.takeWhile (fun c => isAlphanumericByte c || c = '_')
    .ok (r.drop tl.length) ⟨hd ++ tl⟩
  | .err e => .err e
  | .panic => .panic

/-- `parse_array_info` (parser.rs lines 401-432). -/
def parse_array_info : Parser ArrayInfo := fun i =>
  -- `is_array`: peek (preceded (space0, tag "["))
  if ['['].isPrefixOf (i.dropWhile isSpaceChar) then
    pbind (space0 i) fun i _ =>
    pbind (tagP ['['] i) fun i _ =>
    pbind (space0 i) fun i _ =>
    let step : POut (List Char × ArrayInfo) :=
      match peek_tag [']'] i with
      | .ok _ _ => .ok i (i, ArrayInfo.Dynamic)
      | _ =>
        match peek_tag ['<'] i with
        | .ok _ _ =>
          pbind (tagP ['<', '='] i) fun i _ =>
          pbind (u64P i) fun i n => .ok i (i, ArrayInfo.Limited n)
        | _ =>
          pbind (u64P i) fun i n => .ok i (i, ArrayInfo.Static n)
    pbind step fun _ r =>
    pbind (space0 r.1) fun i _ =>
    pbind (tagP [']'] i) fun i _ =>
    .ok i r.2
  else
    .ok i ArrayInfo.NotArray

/-- `parse_string_type` (parser.rs lines 269-285). -/
def parse_string_type : Parser TypeName := fun i =>
  match peek_tag ['<', '='] i with
  | .ok _ _ =>
    pbind (tagP ['<', '='] i) fun i _ =>
    pbind (u64P i) fun i size =>
    pbind (parse_array_info i) fun i ai =>
    .ok i (TypeName.LimitedString size ai)
  | _ =>
    pbind (parse_array_info i) fun i ai =>
    .ok i (TypeName.String ai)

/-- `parse_typename` (parser.rs lines 232-267). -/
def parse_typename : Parser TypeName := fun i =>
  pbind (parse_identifier i) fun i scope =>
  if scope = "string" then
    parse_string_type i
  else
    match peek_tag ['/'] i with
    | .ok _ _ =>
      pbind (tagP ['/'] i) fun i _ =>
      pbind (parse_identifier i) fun i type_name =>
      pbind (parse_array_info i) fun i ai =>
      .ok i (TypeName.ScopedType scope type_name ai)
    | _ =>
      pbind (parse_array_info i) fun i ai =>
      .ok i (TypeName.Type_ scope ai)

/-- `parse_bool` (parser.rs lines 378-385). -/
def parse_bool : Parser Value := fun i =>
  match palt (tagP ['t', 'r', 'u', 'e']) (tagP ['f', 'a', 'l', 's', 'e']) i with
  | .ok r v => .ok r (Value.Bool (v = ['t', 'r', 'u', 'e']))
  | .err e => .err e
  | .panic => .panic

/-- Consumption model of nom `number::complete::double` and the `f64`
value it yields:
`[+-]? ( digits ('.' digits*)? | '.' digits ) ([eE] [+-]? digits)?`.
Binary rounding of the decimal literal follows `Float.ofScientific`. -/
def parse_double : Parser Float := fun i =>
  let (sgn, i1) : Int × List Char :=
    match i with
    | '+' :: r => (1, r)
    | '-' :: r => (-1, r)
    | r => (1, r)
  let ip := i1.takeWhile Char.isDigit
  let i2 := i1.drop ip.length
  let parseFrac : List Char → Option (List Char × List Char) := fun j =>
    match j with
    | '.' :: r => some (r.takeWhile Char.isDigit, r.drop (r.takeWhile Char.isDigit).length)
    | r => some ([], r)
  if ip.isEmpty then
    -- no integer digits: require '.' digits
    match i2 with
    | '.' :: r =>
      let fp := r.takeWhile Char.isDigit
      if fp.isEmpty then .err i
      else
        let i3 := r.drop fp.length
        let digitsVal : List Char → Nat := fun ds => ds.foldl (fun a c => a * 10 + (c.toNat - 48)) 0
        let (expSgn, expDs, i4) : Int × List Char × List Char :=
          match i3 with
          | 'e' :: '+' :: r2 => (1, r2.takeWhile Char.isDigit, r2.drop (r2.takeWhile Char.isDigit).length)
          | 'e' :: '-' :: r2 => (-1, r2.takeWhile Char.isDigit, r2.drop (r2.takeWhile Char.isDigit).length)
          | 'e' :: r2 => (1, r2.takeWhile Char.isDigit, r2.drop (r2.takeWhile Char.isDigit).length)
          | 'E' :: '+' :: r2 => (1, r2.takeWhile Char.isDigit, r2.drop (r2.takeWhile Char.isDigit).length)
          | 'E' :: '-' :: r2 => (-1, r2.takeWhile Char.isDigit, r2.drop (r2.takeWhile Char.isDigit).length)
          | 'E' :: r2 => (1, r2.takeWhile Char.isDigit, r2.drop (r2.takeWhile Char.isDigit).length)
          | r2 => (1, [], r2)
        let i5 := if expDs.isEmpty then i3 else i4
        let e10 : Int := (if expDs.isEmpty then 0 else expSgn * digitsVal expDs) - fp.length
        let m : Nat := digitsVal fp
        let mag : Float := Float.ofScientific m (e10 < 0) e10.natAbs
        .ok i5 (if sgn < 0 then -mag else mag)
    | _ => .err i
  else
    match parseFrac i2 with
    | some (fp, i3) =>
      let digitsVal : List Char → Nat := fun ds => ds.foldl (fun a c => a * 10 + (c.toNat - 48)) 0
      let (expSgn, expDs, i4) : Int × List Char × List Char :=
        match i3 with
        | 'e' :: '+' :: r2 => (1, r2.takeWhile Char.isDigit, r2.drop (r2.takeWhile Char.isDigit).length)
        | 'e' :: '-' :: r2 => (-1, r2.takeWhile Char.isDigit, r2.drop (r2.takeWhile Char.isDigit).length)
        | 'e' :: r2 => (1, r2.takeWhile Char.isDigit, r2.drop (r2.takeWhile Char.isDigit).length)
        | 'E' :: '+' :: r2 => (1, r2.takeWhile Char.isDigit, r2.drop (r2.takeWhile Char.isDigit).length)
        | 'E' :: '-' :: r2 => (-1, r2.takeWhile Char.isDigit, r2.drop (r2.takeWhile Char.isDigit).length)
        | 'E' :: r2 => (1, r2.takeWhile Char.isDigit, r2.drop (r2.takeWhile Char.isDigit).length)
        | r2 => (1, [], r2)
      let i5 := if expDs.isEmpty then i3 else i4
      let e10 : Int := (if expDs.isEmpty then 0 else expSgn * digitsVal expDs) - fp.length
      let m : Nat := digitsVal ip * 10 ^ fp.length + digitsVal fp
      let mag : Float := Float.ofScientific m (e10 < 0) e10.natAbs
      .ok i5 (if sgn < 0 then -mag else mag)
    | none => .err i

/-- Two's-complement wrap of a `u64` into an `i64` (Rust `n as i64`). -/
def u64AsI64 (n : Nat) : Int :=
  if n < 2 ^ 63 then (n : Int) else (n : Int) - 2 ^ 64

/-- Wrap an `Int` into `i64` range (release-mode Rust overflow semantics). -/
def wrapI64 (x : Int) : Int :=
  ((x + 2 ^ 63) % 2 ^ 64) - 2 ^ 63

/-- `parse_num` (parser.rs lines 354-373). -/
def parse_num : Parser Value := fun i =>
  let (minus, i) : Int × List Char :=
    match peek_tag ['-'] i with
    | .ok _ _ => (-1, i.drop 1)
    | _ => (1, i)
  pbind (u64P i) fun i n =>
  match peek_tag ['.'] i with
  | .ok _ _ =>
    pbind (parse_double i) fun i d =>
    .ok i (Value.Float ((d + Float.ofNat n) * (if minus < 0 then -1.0 else 1.0)))
  | _ =>
    if minus = -1 then .ok i (Value.Int (wrapI64 (u64AsI64 n * minus)))
    else .ok i (Value.Uint n)

/-- The character-consuming loop of `parse_string` (parser.rs lines 446-482).
`quote` is the opening delimiter; `acc` is the value built so far. -/
def ps_loop (quote : Char) : List Char → String → POut Value
  | [], _ => .err []
  | c :: rest, acc =>
    if c = quote then .ok rest (Value.String acc)
    else if c = '\\' then
      match rest with
      | [] => .err []
      | e :: rest2 =>
        if e = 'r' then ps_loop quote rest2 (acc ++ "\\r")
        else if e = 'n' then ps_loop quote rest2 (acc ++ "\\n")
        else if e = 't' then ps_loop quote rest2 (acc ++ "\\t")
        else if e = '\\' then ps_loop quote rest2 (acc ++ "\\\\")
        else if e = quote then
          ps_loop quote rest2 (if e = '"' then (acc.push '\\').push quote else acc.push quote)
        else .err (e :: rest2)
    else ps_loop quote rest (acc.push c)

/-- `parse_string` (parser.rs lines 441-483). -/
def parse_string : Parser Value := fun i =>
  pbind (one_of ['"', '\''] i) fun i quote =>
  ps_loop quote i ""

mutual

/-- `parse_value` (parser.rs lines 347-349):
`alt((parse_num, parse_bool, parse_array, parse_string))`.
The `fuel` argument bounds the recursion through `parse_array`
(Rust recurses on the call stack); every level consumes at least one
character, so a fuel of `input.length + 1` at the top entry can never
run out (fuel exhaustion is reported as an error). -/
def parse_value : Nat → Parser Value
  | 0 => fun i => .err i
  | fuel + 1 => fun i =>
    palt parse_num (palt parse_bool (palt (parse_array fuel) parse_string)) i

/-- `parse_array` (parser.rs lines 391-395):
`delimited(tag "[", separated_list1(tag ",", delimited(space0, parse_value, space0)), tag "]")`. -/
def parse_array (fuel : Nat) : Parser Value := fun i =>
  pbind (tagP ['['] i) fun i _ =>
  pbind (space0 i) fun i _ =>
  pbind (parse_value fuel i) fun i v0 =>
  pbind (space0 i) fun i _ =>
  pbind (sep_elems fuel fuel i [v0]) fun i vs =>
  pbind (tagP [']'] i) fun i _ =>
  .ok i (Value.Array vs)

/-- The iteration of nom `separated_list1` after the first element:
repeatedly `tag ","` then `delimited(space0, parse_value, space0)`;
a failing separator or element ends the list (input rewound to before
the separator).  `iterFuel` bounds the loop; each iteration consumes
at least the comma, so it cannot be exhausted from the top entry. -/
def sep_elems (fuel : Nat) : Nat → List Char → List Value → POut (List Value)
  | 0, i, _ => .err i
  | iterFuel + 1, i, acc =>
    match tagP [','] i with
    | .panic => .panic
    | .err _ => .ok i acc
    | .ok i1 _ =>
      match (pbind (space0 i1) fun j _ =>
             pbind (parse_value fuel j) fun j v =>
             pbind (space0 j) fun j _ => .ok j v : POut Value) with
      | .panic => .panic
      | .err _ => .ok i acc
      | .ok i2 v => sep_elems fuel iterFuel i2 (acc ++ [v])

end

/-- Entry point for `parse_value` with sufficient fuel. -/
def parse_value_top : Parser Value := fun i => parse_value (i.length + 1) i

/-- `parse_variable` (parser.rs lines 153-221).  Note the `todo!()`
branch: a double-quoted default value makes the Rust code panic. -/
def parse_variable : Parser Expr := fun i =>
  pbind (parse_typename i) fun i type_name =>
  pbind (space1 i) fun i _ =>
  pbind (parse_identifier i) fun i var_name =>
  pbind (space0 i) fun i _ =>
  let valStep : POut (Option ValueType) :=
    match peek_next_of i with
    | .ok _ c =>
      if c = '=' then
        pbind (tagP ['='] i) fun i _ =>
        pbind (space0 i) fun i _ =>
        pbind (parse_value_top i) fun i v =>
        .ok i (some (ValueType.Const v))
      else if c = '"' then
        .panic   -- `'"' => todo!()`
      else
        pbind (parse_value_top i) fun i v =>
        .ok i (some (ValueType.Default v))
    | _ => .ok i none
  pbind valStep fun i value =>
  pbind (space0 i) fun i _ =>
  let commentStep : POut (Option String) :=
    match peek_tag ['#'] i with
    | .ok _ _ =>
      pbind (tagP ['#'] i) fun i _ =>
      pbind (not_line_ending i) fun i c =>
      .ok i (some c)
    | _ => .ok i none
  pbind commentStep fun i comment =>
  let endStep : POut Unit :=
    if i.isEmpty then .ok i () else line_ending i
  pbind endStep fun i _ =>
  .ok i (Expr.Variable type_name var_name value comment)

/-- `parse_comment` (parser.rs lines 304-317). -/
def parse_comment : Parser Expr := fun i =>
  pbind (tagP ['#'] i) fun i _ =>
  pbind (not_line_ending i) fun i _ =>
  let endStep : POut Unit :=
    if i.isEmpty then .ok i () else line_ending i
  pbind endStep fun i _ =>
  .ok i Expr.Comment

/-- `parse_empty` (parser.rs lines 320-327). -/
def parse_empty : Parser Expr := fun i =>
  if i.isEmpty then .ok i Expr.Eof
  else
    pbind (line_ending i) fun i _ =>
    .ok i Expr.Empty

/-- `parse_expr` (parser.rs lines 144-147). -/
def parse_expr : Parser Expr := fun i =>
  pbind (space0 i) fun i _ =>
  palt parse_empty (palt parse_comment parse_variable) i

/-- Does `parse_msg` keep this expression? (`if let Expr::Variable`) -/
def isVariableExpr : Expr → Bool
  | .Variable _ _ _ _ => true
  | _ => false

/-- The loop of `parse_msg` (parser.rs lines 97-113).  The Rust loop
breaks exactly when the remaining input is empty; a successful
`parse_expr` on nonempty input always consumes at least one character,
so the fuel `input.length + 1` used by `parse_msg` can never run out
(exhaustion is reported as an error). -/
def parse_msg_loop : Nat → List Char → List Expr → POut (List Expr)
  | 0, i, _ => .err i
  | fuel + 1, i, acc =>
    if i.isEmpty then .ok i acc
    else
      match parse_expr i with
      | .err e => .err e
      | .panic => .panic
      | .ok next e =>
        parse_msg_loop fuel next (if isVariableExpr e then acc ++ [e] else acc)

/-- `parse_msg` (parser.rs lines 97-113). -/
def parse_msg (i : List Char) : POut (List Expr) :=
  parse_msg_loop (i.length + 1) i []

/-! ## Generator embedding (src/generator.rs, plus `mangle` from src/main.rs)

`println!` warnings are collected into a `List String` in emission order.
A Rust `panic!`/`unreachable!` is modelled as `Except.error` carrying the
panic message; it aborts the computation like an unwinding panic. -/

/-- `struct Generator` (generator.rs lines 7-13).  `libs : BTreeSet<String>`
is modelled as a sorted duplicate-free list. -/
structure Generator where
  libs : List String
  lib_name : String
  safe_drive_path : String
  disable_common_interfaces : Bool

/-- `enum ExprType` (generator.rs lines 15-19). -/
inductive ExprType where
  | Const (s : String)
  | Variable (s : String)

/-- `BTreeSet::insert` on the sorted-list model. -/
def insertSorted (x : String) : List String → List String
  | [] => [x]
  | y :: t => if x < y then x :: y :: t else if x = y then y :: t else y :: insertSorted x t

/-- `gen_primitives` (generator.rs lines 356-374). -/
def gen_primitives (type_name : String) : Option String :=
  if type_name = "bool" then some "bool"
  else if type_name = "int8" then some "i8"
  else if type_name = "uint8" then some "u8"
  else if type_name = "int16" then some "i16"
  else if type_name = "uint16" then some "u16"
  else if type_name = "int32" then some "i32"
  else if type_name = "uint32" then some "u32"
  else if type_name = "int64" then some "i64"
  else if type_name = "uint64" then some "u64"
  else if type_name = "float32" then some "f32"
  else if type_name = "float64" then some "f64"
  else if type_name = "byte" then some "u8"
  else if type_name = "char" then some "i8"
  else none

/-- The domain of `gen_primitives` — the names recognised as primitives. -/
def primitiveNames : List String :=
  ["bool", "int8", "uint8", "int16", "uint16", "int32", "uint32", "int64",
   "uint64", "float32", "float64", "byte", "char"]

/-- The year-2038 warning printed by `gen_type` and `gen_seq_type`. -/
def warn2038 (lib_name msg_type_name inner : String) : String :=
  "Warning: " ++ (lib_name ++ ("::" ++ (msg_type_name ++
    (" uses builtin_interfaces::" ++ (inner ++ " which causes the year-2038 problem.")))))

/-- `Generator::gen_seq_type` (generator.rs lines 306-349).
Returns the warnings printed and either the produced type string or a
panic message. -/
def gen_seq_type (g : Generator) (scope : Option String) (type_str : String)
    (size : Nat) (type_name : String) : List String × Except String String :=
  if type_str = "bool" then ([], .ok (g.safe_drive_path ++ ("::msg::BoolSeq<" ++ (toString size ++ ">"))))
  else if type_str = "i8" then ([], .ok (g.safe_drive_path ++ ("::msg::I8Seq<" ++ (toString size ++ ">"))))
  else if type_str = "i16" then ([], .ok (g.safe_drive_path ++ ("::msg::I16Seq<" ++ (toString size ++ ">"))))
  else if type_str = "i32" then ([], .ok (g.safe_drive_path ++ ("::msg::I32Seq<" ++ (toString size ++ ">"))))
  else if type_str = "i64" then ([], .ok (g.safe_drive_path ++ ("::msg::I64Seq<" ++ (toString size ++ ">"))))
  else if type_str = "u8" then ([], .ok (g.safe_drive_path ++ ("::msg::U8Seq<" ++ (toString size ++ ">"))))
  else if type_str = "u16" then ([], .ok (g.safe_drive_path ++ ("::msg::U16Seq<" ++ (toString size ++ ">"))))
  else if type_str = "u32" then ([], .ok (g.safe_drive_path ++ ("::msg::U32Seq<" ++ (toString size ++ ">"))))
  else if type_str = "u64" then ([], .ok (g.safe_drive_path ++ ("::msg::U64Seq<" ++ (toString size ++ ">"))))
  else if type_str = "f32" then ([], .ok (g.safe_drive_path ++ ("::msg::F32Seq<" ++ (toString size ++ ">"))))
  else if type_str = "f64" then ([], .ok (g.safe_drive_path ++ ("::msg::F64Seq<" ++ (toString size ++ ">"))))
  else
    match scope with
    | some "builtin_interfaces" =>
      ([warn2038 g.lib_name type_name type_str],
       if type_str = "Time" then
         .ok (g.safe_drive_path ++ ("::msg::builtin_interfaces::UnsafeTimeSeq<" ++ (toString size ++ ">")))
       else if type_str = "Duration" then
         .ok (g.safe_drive_path ++ ("::msg::builtin_interfaces::UnsafeDurationSeq<" ++ (toString size ++ ">")))
       else
         .error ("unsupported type: builtin_interfaces::" ++ type_str))
    | _ => ([], .ok (type_str ++ ("Seq<" ++ (toString size ++ ">"))))

/-- `Generator::gen_array_type` (generator.rs lines 265-278). -/
def gen_array_type (g : Generator) (scope : Option String) (type_str : String)
    (array_info : ArrayInfo) (type_name : String) : List String × Except String String :=
  match array_info with
  | .Dynamic => gen_seq_type g scope type_str 0 type_name
  | .Limited n => gen_seq_type g scope type_str n type_name
  | .Static n => ([], .ok ("[" ++ (type_str ++ ("; " ++ (toString n ++ "]")))))
  | .NotArray => ([], .ok type_str)

/-- `Generator::gen_string_array_type` (generator.rs lines 280-296). -/
def gen_string_array_type (g : Generator) (type_str : String) (strlen : Nat)
    (array_info : ArrayInfo) : List String × Except String String :=
  match array_info with
  | .Dynamic =>
    ([], .ok (g.safe_drive_path ++ ("::msg::RosStringSeq<" ++ (toString strlen ++ ", 0>"))))
  | .Limited n =>
    ([], .ok (g.safe_drive_path ++ ("::msg::RosStringSeq<" ++ (toString strlen ++ (", " ++ (toString n ++ ">"))))))
  | .Static n => ([], .ok ("[" ++ (type_str ++ ("; " ++ (toString n ++ "]")))))
  | .NotArray => ([], .ok type_str)

/-- `Generator::gen_type` (generator.rs lines 206-263).  Returns the
updated generator, the warnings printed, and the type text or a panic. -/
def gen_type (g : Generator) (tn : TypeName) (msg_type_name : String) :
    Generator × List String × Except String String :=
  match tn with
  | .Type_ type_name array_info =>
    let type_str :=
      match gen_primitives type_name with
      | some prim => prim
      | none => type_name
    (g, gen_array_type g none type_str array_info msg_type_name)
  | .String array_info =>
    let type_str := g.safe_drive_path ++ "::msg::RosString<0>"
    (g, gen_string_array_type g type_str 0 array_info)
  | .LimitedString size array_info =>
    let type_str := g.safe_drive_path ++ ("::msg::RosString<" ++ (toString size ++ ">"))
    (g, gen_string_array_type g type_str size array_info)
  | .ScopedType scope type_name array_info =>
    if g.lib_name = scope then
      (g, gen_array_type g (some scope) type_name array_info msg_type_name)
    else if scope = "builtin_interfaces" then
      let w := warn2038 g.lib_name msg_type_name type_name
      if type_name = "Time" then
        let (ws, r) := gen_array_type g (some scope) "builtin_interfaces::UnsafeTime" array_info msg_type_name
        (g, w :: ws, r)
      else if type_name = "Duration" then
        let (ws, r) := gen_array_type g (some scope) "builtin_interfaces::UnsafeDuration" array_info msg_type_name
        (g, w :: ws, r)
      else
        (g, [w], .error ("unsupported type: builtin_interfaces::" ++ type_name))
    else
      let g' : Generator := { g with libs := insertSorted scope g.libs }
      let type_str := scope ++ ("::msg::" ++ type_name)
      (g', gen_array_type g' (some scope) type_str array_info msg_type_name)

/-- `Generator::gen_const_type` (generator.rs lines 298-304).  Only
`TypeName::String` gets the borrowed byte view `&[u8]`. -/
def gen_const_type (g : Generator) (tn : TypeName) (msg_type_name : String) :
    Generator × List String × Except String String :=
  match tn with
  | .String array_info => (g, gen_array_type g none "&[u8]" array_info msg_type_name)
  | _ => gen_type g tn msg_type_name

/-- `mangle` (main.rs lines 295-302). -/
def mangle (var_name : String) : String :=
  if var_name ∈ ["type", "pub", "fn", "match", "if", "while", "break", "continue",
      "unsafe", "async", "move", "trait", "impl", "for", "i8", "u8", "i16", "u16",
      "i32", "u32", "i64", "u64", "bool", "char"]
  then var_name ++ "_"
  else var_name

mutual

/-- The derived `Debug` rendering of a `Value` (used by `Display` for
`Value::Array` via `{:?}`).  Rust's `Debug` escaping of string and float
payloads is approximated (no claim depends on it). -/
def debugValue : Value → String
  | .Bool b => "Bool(" ++ (toString b ++ ")")
  | .String s => "String(\"" ++ (s ++ "\")")
  | .Float f => "Float(" ++ (toString f ++ ")")
  | .Uint n => "Uint(" ++ (toString n ++ ")")
  | .Int n => "Int(" ++ (toString n ++ ")")
  | .Array l => "Array([" ++ (debugList l ++ "])")

/-- `{:?}` over a `Vec<Value>`: comma-separated `Debug` items. -/
def debugList : List Value → String
  | [] => ""
  | [v] => debugValue v
  | v :: rest => debugValue v ++ (", " ++ debugList rest)

end

/-- `impl Display for Value` (parser.rs lines 51-62).  The `Float` arm
uses Rust's `{}` rendering of `f64`, approximated by Lean's `toString`
(no claim depends on a float's text). -/
def displayValue : Value → String
  | .Int n => toString n
  | .Uint n => toString n
  | .Float f => toString f
  | .String s => "b\"" ++ (s ++ "\x00\"")
  | .Bool b => toString b
  | .Array l => "[" ++ (debugList l ++ "]")

/-- `gen_value` (generator.rs lines 352-354). -/
def gen_value (v : Value) : String := displayValue v

/-- `Generator::gen_expr` (generator.rs lines 171-204).  The catch-all
arm is `unreachable!()`, modelled as a panic. -/
def gen_expr (g : Generator) (e : Expr) (msg_type_name : String) :
    Generator × List String × Except String ExprType :=
  match e with
  | .Variable type_name var_name value comment =>
    let vn := mangle var_name
    match value with
    | some (.Const val) =>
      match gen_const_type g type_name msg_type_name with
      | (g', ws, .error msg) => (g', ws, .error msg)
      | (g', ws, .ok ty) =>
        let v := gen_value val
        let line :=
          match comment with
          | some c => "pub const " ++ (vn ++ (": " ++ (ty ++ (" = " ++ (v ++ ("; //" ++ c))))))
          | none => "pub const " ++ (vn ++ (": " ++ (ty ++ (" = " ++ (v ++ ";")))))
        (g', ws, .ok (ExprType.Const line))
    | _ =>
      match gen_type g type_name msg_type_name with
      | (g', ws, .error msg) => (g', ws, .error msg)
      | (g', ws, .ok ty) =>
        let line :=
          match comment with
          | some c => "    pub " ++ (vn ++ (": " ++ (ty ++ (", //" ++ c))))
          | none => "    pub " ++ (vn ++ (": " ++ (ty ++ ",")))
        (g', ws, .ok (ExprType.Variable line))
  | _ => (g, [], .error "internal error: entered unreachable code")

/-- The per-declaration loop shared by `gen_msg` and `gen_srv`
(generator.rs lines 132-137 / 49-61): classify each expression into the
constant lines and the field lines, in source order. -/
def gen_exprs (g : Generator) (msg_type_name : String) :
    List Expr → Generator × List String × Except String (List String × List String)
  | [] => (g, [], .ok ([], []))
  | e :: rest =>
    match gen_expr g e msg_type_name with
    | (g', ws, .error msg) => (g', ws, .error msg)
    | (g', ws, .ok (.Const c)) =>
      match gen_exprs g' msg_type_name rest with
      | (g'', ws', .error msg) => (g'', ws ++ ws', .error msg)
      | (g'', ws', .ok (cs, vs)) => (g'', ws ++ ws', .ok (c :: cs, vs))
    | (g', ws, .ok (.Variable v)) =>
      match gen_exprs g' msg_type_name rest with
      | (g'', ws', .error msg) => (g'', ws ++ ws', .error msg)
      | (g'', ws', .ok (cs, vs)) => (g'', ws ++ ws', .ok (cs, v :: vs))

/-- `gen_cfun_msg` (generator.rs lines 376-391): the `extern "C"` block
pushed as one multi-line string. -/
def gen_cfun_msg (m t : String) : String :=
  "\nextern \"C\" \x7b\n" ++
  "    fn " ++ m ++ "__msg__" ++ t ++ "__init(msg: *mut " ++ t ++ ") -> bool;\n" ++
  "    fn " ++ m ++ "__msg__" ++ t ++ "__fini(msg: *mut " ++ t ++ ");\n" ++
  "    fn " ++ m ++ "__msg__" ++ t ++ "__are_equal(lhs: *const " ++ t ++ ", rhs: *const " ++ t ++ ") -> bool;\n" ++
  "    fn " ++ m ++ "__msg__" ++ t ++ "__Sequence__init(msg: *mut " ++ t ++ "SeqRaw, size: usize) -> bool;\n" ++
  "    fn " ++ m ++ "__msg__" ++ t ++ "__Sequence__fini(msg: *mut " ++ t ++ "SeqRaw);\n" ++
  "    fn " ++ m ++ "__msg__" ++ t ++ "__Sequence__are_equal(lhs: *const " ++ t ++ "SeqRaw, rhs: *const " ++ t ++ "SeqRaw) -> bool;\n" ++
  "    fn rosidl_typesupport_c__get_message_type_support_handle__" ++ m ++ "__msg__" ++ t ++
  "() -> *const rcl::rosidl_message_type_support_t;\n\x7d\n"

/-- `gen_cfun_srv` (generator.rs lines 393-412). -/
def gen_cfun_srv (m t : String) : String :=
  "\nextern \"C\" \x7b\n" ++
  "    fn " ++ m ++ "__srv__" ++ t ++ "_Request__init(msg: *mut " ++ t ++ "Request) -> bool;\n" ++
  "    fn " ++ m ++ "__srv__" ++ t ++ "_Request__fini(msg: *mut " ++ t ++ "Request);\n" ++
  "    fn " ++ m ++ "__srv__" ++ t ++ "_Request__Sequence__init(msg: *mut " ++ t ++ "RequestSeqRaw, size: usize) -> bool;\n" ++
  "    fn " ++ m ++ "__srv__" ++ t ++ "_Request__Sequence__fini(msg: *mut " ++ t ++ "RequestSeqRaw);\n" ++
  "    fn " ++ m ++ "__srv__" ++ t ++ "_Response__init(msg: *mut " ++ t ++ "Response) -> bool;\n" ++
  "    fn " ++ m ++ "__srv__" ++ t ++ "_Response__fini(msg: *mut " ++ t ++ "Response);\n" ++
  "    fn " ++ m ++ "__srv__" ++ t ++ "_Response__Sequence__init(msg: *mut " ++ t ++ "ResponseSeqRaw, size: usize) -> bool;\n" ++
  "    fn " ++ m ++ "__srv__" ++ t ++ "_Response__Sequence__fini(msg: *mut " ++ t ++ "ResponseSeqRaw);\n" ++
  "    fn rosidl_typesupport_c__get_service_type_support_handle__" ++ m ++ "__srv__" ++ t ++ "() -> *const rcl::rosidl_service_type_support_t;\n" ++
  "    fn rosidl_typesupport_c__get_message_type_support_handle__" ++ m ++ "__srv__" ++ t ++ "_Request() -> *const rcl::rosidl_message_type_support_t;\n" ++
  "    fn rosidl_typesupport_c__get_message_type_support_handle__" ++ m ++ "__srv__" ++ t ++
  "_Response() -> *const rcl::rosidl_message_type_support_t;\n\x7d\n"

/-- `enum MsgOrSrv` (generator.rs lines 500-504). -/
inductive MsgOrSrv where
  | Msg
  | Srv

/-- `gen_impl` (generator.rs lines 506-628): the `impl`/sequence-wrapper
template pushed as one multi-line string. -/
def gen_impl (module_name type_name req_resp c_func_mid : String)
    (msg_or_srv : MsgOrSrv) : String :=
  let mid : String := match msg_or_srv with | .Msg => "msg" | .Srv => "srv"
  let tnf := type_name ++ req_resp
  let cfn := module_name ++ "__" ++ mid ++ "__" ++ type_name ++ c_func_mid
  "\nimpl " ++ tnf ++ " \x7b\n" ++
  "    pub fn new() -> Option<Self> \x7b\n" ++
  "        let mut msg: Self = unsafe \x7b std::mem::MaybeUninit::zeroed().assume_init() \x7d;\n" ++
  "        if unsafe \x7b " ++ cfn ++ "__init(&mut msg) \x7d \x7b\n" ++
  "            Some(msg)\n        \x7d else \x7b\n            None\n        \x7d\n    \x7d\n\x7d\n" ++
  "\nimpl Drop for " ++ tnf ++ " \x7b\n    fn drop(&mut self) \x7b\n        unsafe \x7b " ++ cfn ++ "__fini(self) \x7d;\n    \x7d\n\x7d\n" ++
  "\n#[repr(C)]\n#[derive(Debug)]\nstruct " ++ tnf ++ "SeqRaw \x7b\n    data: *mut " ++ tnf ++ ",\n    size: usize,\n    capacity: usize,\n\x7d\n" ++
  "\n/// Sequence of " ++ tnf ++ ".\n/// `N` is the maximum number of elements.\n/// If `N` is `0`, the size is unlimited.\n#[repr(C)]\n#[derive(Debug)]\npub struct " ++ tnf ++ "Seq<const N: usize> \x7b\n    data: *mut " ++ tnf ++ ",\n    size: usize,\n    capacity: usize,\n\x7d\n" ++
  "\nimpl<const N: usize> " ++ tnf ++ "Seq<N> \x7b\n" ++
  "    /// Create a sequence of.\n    /// `N` represents the maximum number of elements.\n    /// If `N` is `0`, the sequence is unlimited.\n" ++
  "    pub fn new(size: usize) -> Option<Self> \x7b\n        if N != 0 && size >= N \x7b\n            // the size exceeds in the maximum number\n            return None;\n        \x7d\n\n" ++
  "        let mut msg: " ++ tnf ++ "SeqRaw = unsafe \x7b std::mem::MaybeUninit::zeroed().assume_init() \x7d;\n        if unsafe \x7b " ++ cfn ++ "__Sequence__init(&mut msg, size) \x7d \x7b\n            Some(Self \x7bdata: msg.data, size: msg.size, capacity: msg.capacity \x7d)\n        \x7d else \x7b\n            None\n        \x7d\n    \x7d\n\n" ++
  "    pub fn null() -> Self \x7b\n        let msg: " ++ tnf ++ "SeqRaw = unsafe \x7b std::mem::MaybeUninit::zeroed().assume_init() \x7d;\n        Self \x7bdata: msg.data, size: msg.size, capacity: msg.capacity \x7d\n    \x7d\n\n" ++
  "    pub fn as_slice(&self) -> &[" ++ tnf ++ "] \x7b\n        if self.data.is_null() \x7b\n            &[]\n        \x7d else \x7b\n            let s = unsafe \x7b std::slice::from_raw_parts(self.data, self.size) \x7d;\n            s\n        \x7d\n    \x7d\n\n" ++
  "    pub fn as_slice_mut(&mut self) -> &mut [" ++ tnf ++ "] \x7b\n        if self.data.is_null() \x7b\n            &mut []\n        \x7d else \x7b\n            let s = unsafe \x7b std::slice::from_raw_parts_mut(self.data, self.size) \x7d;\n            s\n        \x7d\n    \x7d\n\n" ++
  "    pub fn iter(&self) -> std::slice::Iter<\x27_, " ++ tnf ++ "> \x7b\n        self.as_slice().iter()\n    \x7d\n\n" ++
  "    pub fn iter_mut(&mut self) -> std::slice::IterMut<\x27_, " ++ tnf ++ "> \x7b\n        self.as_slice_mut().iter_mut()\n    \x7d\n\n" ++
  "    pub fn len(&self) -> usize \x7b\n        self.as_slice().len()\n    \x7d\n\n    pub fn is_empty(&self) -> bool \x7b\n        self.len() == 0\n    \x7d\n\x7d\n" ++
  "\nimpl<const N: usize> Drop for " ++ tnf ++ "Seq<N> \x7b\n    fn drop(&mut self) \x7b\n        let mut msg = " ++ tnf ++ "SeqRaw\x7bdata: self.data, size: self.size, capacity: self.capacity\x7d;\n        unsafe \x7b " ++ cfn ++ "__Sequence__fini(&mut msg) \x7d;\n    \x7d\n\x7d\n" ++
  "\nunsafe impl<const N: usize> Send for " ++ tnf ++ "Seq<N> \x7b\x7d\nunsafe impl<const N: usize> Sync for " ++ tnf ++
  "Seq<N> \x7b\x7d\n"

/-- The `impl_trait_str` string of `gen_impl_and_seq_msg`
(generator.rs lines 417-445). -/
def gen_impl_trait_msg (m t : String) : String :=
  "\nimpl TypeSupport for " ++ t ++ " \x7b\n    fn type_support() -> *const rcl::rosidl_message_type_support_t \x7b\n        unsafe \x7b\n            rosidl_typesupport_c__get_message_type_support_handle__" ++ m ++ "__msg__" ++ t ++ "()\n        \x7d\n    \x7d\n\x7d\n" ++
  "\nimpl PartialEq for " ++ t ++ " \x7b\n    fn eq(&self, other: &Self) -> bool \x7b\n        unsafe \x7b\n            " ++ m ++ "__msg__" ++ t ++ "__are_equal(self, other)\n        \x7d\n    \x7d\n\x7d\n" ++
  "\nimpl<const N: usize> PartialEq for " ++ t ++ "Seq<N> \x7b\n    fn eq(&self, other: &Self) -> bool \x7b\n        unsafe \x7b\n            let msg1 = " ++ t ++ "SeqRaw\x7bdata: self.data, size: self.size, capacity: self.capacity\x7d;\n            let msg2 = " ++ t ++ "SeqRaw\x7bdata: other.data, size: other.size, capacity: other.capacity\x7d;\n            " ++ m ++ "__msg__" ++ t ++
  "__Sequence__are_equal(&msg1, &msg2)\n        \x7d\n    \x7d\n\x7d\n"

/-- `gen_impl_and_seq_msg` (generator.rs lines 414-449): the two strings
it pushes. -/
def gen_impl_and_seq_msg (m t : String) : List String :=
  [gen_impl m t "" "" MsgOrSrv.Msg, gen_impl_trait_msg m t]

/-- The `struct_srv` string of `gen_impl_and_seq_srv`
(generator.rs lines 465-497). -/
def gen_struct_srv (m t : String) : String :=
  "\npub struct " ++ t ++ ";\n\nimpl ServiceMsg for " ++ t ++ " \x7b\n    type Request = " ++ t ++ "Request;\n    type Response = " ++ t ++ "Response;\n    fn type_support() -> *const rcl::rosidl_service_type_support_t \x7b\n        unsafe \x7b\n            rosidl_typesupport_c__get_service_type_support_handle__" ++ m ++ "__srv__" ++ t ++ "()\n        \x7d\n    \x7d\n\x7d\n" ++
  "\nimpl TypeSupport for " ++ t ++ "Request \x7b\n    fn type_support() -> *const rcl::rosidl_message_type_support_t \x7b\n        unsafe \x7b\n            rosidl_typesupport_c__get_message_type_support_handle__" ++ m ++ "__srv__" ++ t ++ "_Request()\n        \x7d\n    \x7d\n\x7d\n" ++
  "\nimpl TypeSupport for " ++ t ++ "Response \x7b\n    fn type_support() -> *const rcl::rosidl_message_type_support_t \x7b\n        unsafe \x7b\n            rosidl_typesupport_c__get_message_type_support_handle__" ++ m ++ "__srv__" ++ t ++
  "_Response()\n        \x7d\n    \x7d\n\x7d\n"

/-- `gen_impl_and_seq_srv` (generator.rs lines 451-498): the three strings
it pushes. -/
def gen_impl_and_seq_srv (m t : String) : List String :=
  [gen_impl m t "Request" "_Request" MsgOrSrv.Srv,
   gen_impl m t "Response" "_Response" MsgOrSrv.Srv,
   gen_struct_srv m t]

/-- The auto-generation header pushed to the front of every file. -/
def genHeader : String :=
  "// This file was automatically generated by ros2msg_to_rs (https://github.com/tier4/ros2msg_to_rs)."

/-- The placeholder field emitted into a field-less struct. -/
def placeholderField : String := "    _unused: u8"

/-- The `use` lines pushed at the top of `gen_msg`
(generator.rs lines 118-127). -/
def gen_msg_uses (g : Generator) : List String :=
  ["use super::*;", "use super::super::super::*;",
   "use " ++ (g.safe_drive_path ++ "::msg::*;"),
   "use " ++ (g.safe_drive_path ++ "::rcl;")]
  ++ (if g.disable_common_interfaces then []
      else ["use " ++ (g.safe_drive_path ++ "::msg::common_interfaces::*;")])

/-- The `use` lines pushed at the top of `gen_srv`
(generator.rs lines 39-43). -/
def gen_srv_uses (g : Generator) : List String :=
  ["use super::super::*;", "use super::super::super::*;",
   "use " ++ (g.safe_drive_path ++ "::msg::*;"),
   "use " ++ (g.safe_drive_path ++ "::rcl;"),
   "use " ++ (g.safe_drive_path ++ "::msg::common_interfaces::*;")]

/-- `Generator::gen_msg` (generator.rs lines 111-169).  Returns the
updated generator, the warnings, and the emitted lines (or a panic). -/
def gen_msg (g : Generator) (module_name type_name : String) (exprs : List Expr) :
    Generator × List String × Except String (List String) :=
  let uses : List String := gen_msg_uses g
  match gen_exprs g type_name exprs with
  | (g', ws, .error msg) => (g', ws, .error msg)
  | (g', ws, .ok (const_val, vars)) =>
    (g', ws, .ok (genHeader ::
      (uses ++ (const_val ++ ([gen_cfun_msg module_name type_name] ++
        (["", "#[repr(C)]", "#[derive(Debug)]", "pub struct " ++ (type_name ++ " \x7b")] ++
          ((if vars.isEmpty then [placeholderField] else vars) ++
            ("\x7d" :: gen_impl_and_seq_msg module_name type_name))))))))

/-- `Generator::gen_srv` (generator.rs lines 31-109). -/
def gen_srv (g : Generator) (module_name type_name : String)
    (exprs_req exprs_resp : List Expr) :
    Generator × List String × Except String (List String) :=
  let uses : List String := gen_srv_uses g
  match gen_exprs g type_name exprs_req with
  | (g', ws, .error msg) => (g', ws, .error msg)
  | (g', ws, .ok (cs_req, var_req)) =>
    match gen_exprs g' type_name exprs_resp with
    | (g'', ws', .error msg) => (g'', ws ++ ws', .error msg)
    | (g'', ws', .ok (cs_resp, var_resp)) =>
      (g'', ws ++ ws', .ok (genHeader ::
        (uses ++ ((cs_req ++ cs_resp) ++ ([gen_cfun_srv module_name type_name] ++
          (["", "#[repr(C)]", "#[derive(Debug)]", "pub struct " ++ (type_name ++ "Request \x7b")] ++
            ((if var_req.isEmpty then [placeholderField] else var_req) ++
              (["\x7d"] ++
                (["", "#[repr(C)]", "#[derive(Debug)]", "pub struct " ++ (type_name ++ "Response \x7b")] ++
                  ((if var_resp.isEmpty then [placeholderField] else var_resp) ++
                    ("\x7d" :: gen_impl_and_seq_srv module_name type_name)))))))))))

/-! ## Semantics of the emitted sequence wrapper

The text of the wrapper is produced by `gen_impl` above; the two
constructors it emits are, for every instantiation of the template:

```
pub fn new(size: usize) -> Option<Self> {
    if N != 0 && size >= N { return None; }
    ... Sequence__init(&mut msg, size) ... Some(..) / None
}
pub fn null() -> Self { zeroed }
```

`seq_new` gives the meaning of `new`: `nativeInit` stands for the native
`__Sequence__init` foreign function (returning `some` state on success);
the guard rejects before ever calling it.  `seq_null` gives the meaning
of `null`, which unconditionally returns the zeroed value. -/

/-- Semantics of the emitted `Seq::<N>::new(size)` (generator.rs
lines 563-575 of the `gen_impl` template). -/
def seq_new {α : Type} (N size : Nat) (nativeInit : Nat → Option α) : Option α :=
  if N ≠ 0 ∧ size ≥ N then none else nativeInit size

/-- Semantics of the emitted `Seq::<N>::null()` (generator.rs
lines 577-580): always succeeds, returning the zeroed value. -/
def seq_null {α : Type} (zeroed : α) : α := zeroed

/-! ## Auxiliary definitions used by the claims -/

/-- Replace the array shape carried by a type annotation. -/
def TypeName.withArray : TypeName → ArrayInfo → TypeName
  | .Type_ n _, ai => .Type_ n ai
  | .ScopedType s n _, ai => .ScopedType s n ai
  | .LimitedString sz _, ai => .LimitedString sz ai
  | .String _, ai => .String ai

/-- Is this a declaration of a named constant (a `Variable` with a
`Const` value)? -/
def isConstExpr : Expr → Bool
  | .Variable _ _ (some (.Const _)) _ => true
  | _ => false

/-- A sample generator state: package `sensor_msgs`, default
`safe_drive` path, common interfaces enabled. -/
def g0 : Generator := ⟨[], "sensor_msgs", "safe_drive", false⟩

/-- One token of the body of a double-quoted IDL string literal:
either one of the five supported escape sequences or a plain character. -/
inductive Tok where
  | back
  | quot
  | cr
  | nl
  | tab
  | chr (c : Char)

/-- The source text of a token inside the double-quoted literal. -/
def encTok : Tok → List Char
  | .back => ['\\', '\\']
  | .quot => ['\\', '"']
  | .cr => ['\\', 'r']
  | .nl => ['\\', 'n']
  | .tab => ['\\', 't']
  | .chr c => [c]

/-- The source text of a whole literal body. -/
def encToks : List Tok → List Char
  | [] => []
  | t :: ts => encTok t ++ encToks ts

/-- Modelled from the spec: the character a token denotes in the
original literal value (`\\`, `\"`, `\r`, `\n`, `\t` decode to backslash,
quote, CR, LF, TAB; unescaped characters pass through verbatim). -/
def valTok : Tok → Char
  | .back => '\\'
  | .quot => '"'
  | .cr => '\r'
  | .nl => '\n'
  | .tab => '\t'
  | .chr c => c

/-- Modelled from the spec: decoding one Rust escape sequence of the
emitted constant value (`\r`, `\n`, `\t`, `\\`, `\"`). -/
def escChar (e : Char) : Char :=
  if e = 'r' then '\r' else if e = 'n' then '\n' else if e = 't' then '\t' else e

/-- Modelled from the spec: decoding all Rust escape sequences in the
emitted constant value. -/
def rustDecode : List Char → List Char
  | [] => []
  | c :: rest =>
    if c = '\\' then
      match rest with
      | [] => ['\\']
      | e :: rest2 => escChar e :: rustDecode rest2
    else c :: rustDecode rest

/-- A plain character token is neither a backslash nor a double quote
(those must be written escaped inside a double-quoted literal). -/
def chrOk : Tok → Bool
  | .chr c => !(c = '\\' || c = '"')
  | _ => true

/-- A one-field, one-constant declaration list used as a witness input. -/
def c5expr : Expr :=
  Expr.Variable (.Type_ "int32" .NotArray) "A" (some (.Const (.Uint 5))) none

/-! ## Helper lemmas -/

/-- The first character of `s ++ x` is the first character of a
nonempty `s`. -/
theorem head_append_of_head (s x : String) (c : Char) (h : s.data.head? = some c) :
    (s ++ x).data.head? = some c := by
  cases s with
  | mk d =>
    cases x with
    | mk e =>
      cases d with
      | nil => simp at h
      | cons a t =>
        have he : (String.mk (a :: t) ++ String.mk e) = String.mk ((a :: t) ++ e) := rfl
        rw [he]
        simpa using h

/-- A string whose first character is not a space is not the placeholder
field line. -/
theorem ph_ne (s : String) (c : Char) (h : s.data.head? = some c) (hc : c ≠ ' ') :
    placeholderField ≠ s := by
  intro e
  rw [← e] at h
  exact hc (Option.some.inj h).symm

/-- Dropping a placeholder-free prefix does not change the placeholder
count. -/
theorem count_skip (A B : List String) (hA : placeholderField ∉ A) :
    List.count placeholderField (A ++ B) = List.count placeholderField B := by
  rw [List.count_append, List.count_eq_zero.mpr hA, Nat.zero_add]

/-- A name outside the 13-entry table is not a primitive. -/
theorem gen_primitives_eq_none (s : String) (h : s ∉ primitiveNames) :
    gen_primitives s = none := by
  simp only [primitiveNames, List.mem_cons, List.not_mem_nil, or_false, not_or] at h
  obtain ⟨n1, n2, n3, n4, n5, n6, n7, n8, n9, n10, n11, n12, n13⟩ := h
  unfold gen_primitives
  split_ifs
  rfl

/-- `gen_primitives` succeeds exactly on the names of the table. -/
theorem gen_primitives_isSome_iff (s : String) :
    (gen_primitives s).isSome = true ↔ s ∈ primitiveNames := by
  constructor
  · intro hs
    by_contra hm
    rw [gen_primitives_eq_none s hm] at hs
    simp at hs
  · intro hm
    fin_cases hm <;> rfl

/-- The `parse_msg` loop only succeeds with all input consumed: the loop
breaks exactly when the remaining input is empty. -/
theorem parse_msg_loop_rest (fuel : Nat) :
    ∀ (i : List Char) (acc : List Expr) (rest : List Char) (l : List Expr),
      parse_msg_loop fuel i acc = .ok rest l → rest = [] := by
  induction fuel with
  | zero => intro i acc rest l h; simp [parse_msg_loop] at h
  | succ n ih =>
    intro i acc rest l h
    unfold parse_msg_loop at h
    split at h
    · rename_i hi
      simp at h
      rcases h with ⟨h1, _⟩
      rw [← h1]
      simpa using hi
    · split at h
      · simp at h
      · simp at h
      · exact ih _ _ _ _ h

/-- Running the `parse_string` loop on an encoded literal body followed
by the closing quote stores exactly the encoded body (escapes are kept
in escaped form) and stops right after the closing quote. -/
theorem ps_loop_stores : ∀ (ts : List Tok) (rest : List Char) (acc : String),
    (∀ t ∈ ts, chrOk t = true) →
    ps_loop '"' (encToks ts ++ '"' :: rest) acc =
      .ok rest (Value.String ⟨acc.data ++ encToks ts⟩) := by
  intro ts
  induction ts with
  | nil =>
    intro rest acc h
    cases acc with
    | mk d =>
      simp only [encToks, List.nil_append, List.append_nil]
      rw [ps_loop.eq_def]
      rfl
  | cons t ts ih =>
    intro rest acc h
    have hts : ∀ x ∈ ts, chrOk x = true := fun x hx => h x (List.mem_cons_of_mem _ hx)
    cases t with
    | back =>
      cases acc with
      | mk d =>
        refine Eq.trans (ih rest ⟨d ++ ['\\', '\\']⟩ hts) ?_
        simp [encToks, encTok]
    | quot =>
      cases acc with
      | mk d =>
        refine Eq.trans (ih rest ⟨(d ++ ['\\']) ++ ['"']⟩ hts) ?_
        simp [encToks, encTok]
    | cr =>
      cases acc with
      | mk d =>
        refine Eq.trans (ih rest ⟨d ++ ['\\', 'r']⟩ hts) ?_
        simp [encToks, encTok]
    | nl =>
      cases acc with
      | mk d =>
        refine Eq.trans (ih rest ⟨d ++ ['\\', 'n']⟩ hts) ?_
        simp [encToks, encTok]
    | tab =>
      cases acc with
      | mk d =>
        refine Eq.trans (ih rest ⟨d ++ ['\\', 't']⟩ hts) ?_
        simp [encToks, encTok]
    | chr c =>
      have hc := h (Tok.chr c) (List.mem_cons_self _ _)
      simp only [chrOk, Bool.not_eq_true', Bool.or_eq_false_iff, decide_eq_false_iff_not] at hc
      obtain ⟨hc1, hc2⟩ := hc
      cases acc with
      | mk d =>
        have henc : encToks (Tok.chr c :: ts) = c :: encToks ts := rfl
        rw [henc, List.cons_append, ps_loop.eq_def]
        simp only [hc1, hc2, if_false, if_neg]
        refine Eq.trans (ih rest ⟨d ++ [c]⟩ hts) ?_
        simp

/-- Unfolding `rustDecode` on a non-backslash head. -/
theorem rustDecode_cons_ne (c : Char) (rest : List Char) (h : ¬ c = '\\') :
    rustDecode (c :: rest) = c :: rustDecode rest := by
  rw [rustDecode.eq_def]
  simp [h]

/-- Decoding the escapes of an encoded literal body recovers the
denoted characters. -/
theorem rustDecode_encToks : ∀ (ts : List Tok),
    (∀ t ∈ ts, chrOk t = true) →
    rustDecode (encToks ts) = ts.map valTok := by
  intro ts
  induction ts with
  | nil => intro h; rfl
  | cons t ts ih =>
    intro h
    have hts : ∀ x ∈ ts, chrOk x = true := fun x hx => h x (List.mem_cons_of_mem _ hx)
    cases t with
    | back => simpa [encToks, encTok, rustDecode, escChar, valTok] using ih hts
    | quot => simpa [encToks, encTok, rustDecode, escChar, valTok] using ih hts
    | cr => simpa [encToks, encTok, rustDecode, escChar, valTok] using ih hts
    | nl => simpa [encToks, encTok, rustDecode, escChar, valTok] using ih hts
    | tab => simpa [encToks, encTok, rustDecode, escChar, valTok] using ih hts
    | chr c =>
      have hc := h (Tok.chr c) (List.mem_cons_self _ _)
      simp only [chrOk, Bool.not_eq_true', Bool.or_eq_false_iff, decide_eq_false_iff_not] at hc
      obtain ⟨hc1, hc2⟩ := hc
      have henc : encToks (Tok.chr c :: ts) = c :: encToks ts := rfl
      rw [henc, rustDecode_cons_ne _ _ hc1, ih hts]
      rfl

/-- A constant line produced by `gen_expr` starts with `pub const`. -/
theorem gen_expr_const_head (g : Generator) (e : Expr) (m : String)
    (g' : Generator) (ws : List String) (c : String)
    (h : gen_expr g e m = (g', ws, .ok (ExprType.Const c))) :
    c.data.head? = some 'p' := by
  cases e with
  | Variable tn vn val cmt =>
    rcases val with _ | vt
    · simp only [gen_expr] at h
      split at h <;> simp_all
    · rcases vt with v | v
      · simp only [gen_expr] at h
        split at h
        · simp at h
        · rcases cmt with _ | cc <;>
          · simp only [Prod.mk.injEq, Except.ok.injEq, ExprType.Const.injEq] at h
            obtain ⟨-, -, hc⟩ := h
            rw [← hc]
            exact head_append_of_head _ _ _ rfl
      · simp only [gen_expr] at h
        split at h <;> simp_all
  | Empty => simp [gen_expr] at h
  | Comment => simp [gen_expr] at h
  | Eof => simp [gen_expr] at h

/-- A constant declaration can only produce a constant line. -/
theorem gen_expr_isConst (g : Generator) (e : Expr) (m : String)
    (g' : Generator) (ws : List String) (et : ExprType)
    (hc : isConstExpr e = true)
    (h : gen_expr g e m = (g', ws, .ok et)) :
    ∃ c, et = ExprType.Const c := by
  cases e with
  | Variable tn vn val cmt =>
    rcases val with _ | vt
    · simp [isConstExpr] at hc
    · rcases vt with v | v
      · simp only [gen_expr] at h
        split at h
        · simp at h
        · rcases cmt with _ | cc <;>
          · simp only [Prod.mk.injEq, Except.ok.injEq] at h
            exact ⟨_, h.2.2.symm⟩
      · simp [isConstExpr] at hc
  | Empty => simp [isConstExpr] at hc
  | Comment => simp [isConstExpr] at hc
  | Eof => simp [isConstExpr] at hc

/-- Shape of a successful `gen_exprs` run: every emitted constant line
starts with `pub const`, and a declaration list of constants only
produces no field lines. -/
theorem gen_exprs_shape :
    ∀ (exprs : List Expr) (g : Generator) (m : String) (g' : Generator)
      (ws cs vs : List String),
      gen_exprs g m exprs = (g', ws, .ok (cs, vs)) →
      (∀ c ∈ cs, c.data.head? = some 'p') ∧
      ((∀ e ∈ exprs, isConstExpr e = true) → vs = []) := by
  intro exprs
  induction exprs with
  | nil =>
    intro g m g' ws cs vs h
    simp only [gen_exprs, Prod.mk.injEq, Except.ok.injEq] at h
    obtain ⟨-, -, hcs, hvs⟩ := h
    subst hcs
    subst hvs
    exact ⟨by simp, fun _ => rfl⟩
  | cons e rest ih =>
    intro g m g' ws cs vs h
    unfold gen_exprs at h
    split at h
    · simp at h
    · rename_i g1 ws1 c heq1
      split at h
      · simp at h
      · rename_i g2 ws2 cs1 vs1 heq2
        simp only [Prod.mk.injEq, Except.ok.injEq] at h
        obtain ⟨-, -, hcs, hvs⟩ := h
        subst hcs
        subst hvs
        have hin := ih _ m _ _ _ _ heq2
        constructor
        · intro x hx
          rcases List.mem_cons.1 hx with rfl | hx'
          · exact gen_expr_const_head _ _ _ _ _ _ heq1
          · exact hin.1 x hx'
        · intro hall
          exact hin.2 (fun e' he' => hall e' (List.mem_cons_of_mem _ he'))
    · rename_i g1 ws1 v heq1
      split at h
      · simp at h
      · rename_i g2 ws2 cs1 vs1 heq2
        simp only [Prod.mk.injEq, Except.ok.injEq] at h
        obtain ⟨-, -, hcs, hvs⟩ := h
        subst hcs
        subst hvs
        have hin := ih _ m _ _ _ _ heq2
        constructor
        · exact hin.1
        · intro hall
          obtain ⟨c, hcet⟩ := gen_expr_isConst _ _ _ _ _ _ (hall e (List.mem_cons_self _ _)) heq1
          simp at hcet

/-- Every `use` line of `gen_msg` starts with `u`. -/
theorem gen_msg_uses_head (g : Generator) :
    ∀ s ∈ gen_msg_uses g, s.data.head? = some 'u' := by
  intro s hs
  unfold gen_msg_uses at hs
  cases hd : g.disable_common_interfaces <;> rw [hd] at hs <;> simp at hs
  · rcases hs with rfl | rfl | rfl | rfl | rfl
    · rfl
    · rfl
    · exact head_append_of_head _ _ _ rfl
    · exact head_append_of_head _ _ _ rfl
    · exact head_append_of_head _ _ _ rfl
  · rcases hs with rfl | rfl | rfl | rfl
    · rfl
    · rfl
    · exact head_append_of_head _ _ _ rfl
    · exact head_append_of_head _ _ _ rfl

/-- Every `use` line of `gen_srv` starts with `u`. -/
theorem gen_srv_uses_head (g : Generator) :
    ∀ s ∈ gen_srv_uses g, s.data.head? = some 'u' := by
  intro s hs
  unfold gen_srv_uses at hs
  simp at hs
  rcases hs with rfl | rfl | rfl | rfl | rfl
  · rfl
  · rfl
  · exact head_append_of_head _ _ _ rfl
  · exact head_append_of_head _ _ _ rfl
  · exact head_append_of_head _ _ _ rfl

/-! ## Claim theorems -/

/-- C1: evaluation of `gen_type` for `builtin_interfaces/Time` and
`builtin_interfaces/Duration` in an external package (`sensor_msgs`).
Scalar and fixed-array shapes succeed with exactly one warning and the
unsafe substitution, and an unknown name under the scope is a fatal
error — but, contrary to the claim, the bounded and unbounded array
shapes print a second warning and then panic: `gen_type` substitutes
`builtin_interfaces::UnsafeTime` before calling `gen_seq_type`, whose
`Time`/`Duration` arms can therefore never match. -/
theorem c1_eval :
    gen_type g0 (.ScopedType "builtin_interfaces" "Time" .NotArray) "Sample" =
      (g0, ["Warning: sensor_msgs::Sample uses builtin_interfaces::Time which causes the year-2038 problem."],
       .ok "builtin_interfaces::UnsafeTime") ∧
    gen_type g0 (.ScopedType "builtin_interfaces" "Time" (.Static 4)) "Sample" =
      (g0, ["Warning: sensor_msgs::Sample uses builtin_interfaces::Time which causes the year-2038 problem."],
       .ok "[builtin_interfaces::UnsafeTime; 4]") ∧
    gen_type g0 (.ScopedType "builtin_interfaces" "Time" .Dynamic) "Sample" =
      (g0, ["Warning: sensor_msgs::Sample uses builtin_interfaces::Time which causes the year-2038 problem.",
            "Warning: sensor_msgs::Sample uses builtin_interfaces::builtin_interfaces::UnsafeTime which causes the year-2038 problem."],
       .error "unsupported type: builtin_interfaces::builtin_interfaces::UnsafeTime") ∧
    gen_type g0 (.ScopedType "builtin_interfaces" "Duration" (.Limited 3)) "Sample" =
      (g0, ["Warning: sensor_msgs::Sample uses builtin_interfaces::Duration which causes the year-2038 problem.",
            "Warning: sensor_msgs::Sample uses builtin_interfaces::builtin_interfaces::UnsafeDuration which causes the year-2038 problem."],
       .error "unsupported type: builtin_interfaces::builtin_interfaces::UnsafeDuration") ∧
    gen_type g0 (.ScopedType "builtin_interfaces" "Foo" .NotArray) "Sample" =
      (g0, ["Warning: sensor_msgs::Sample uses builtin_interfaces::Foo which causes the year-2038 problem."],
       .error "unsupported type: builtin_interfaces::Foo") :=
  ⟨rfl, rfl, rfl, rfl, rfl⟩

/-- C2: for every base type, resolving with `Bounded(0)` (`Limited 0`)
is identical to resolving with `Unbounded` (`Dynamic`) — for fields and
for constants — and the sequence wrappers produced carry capacity
parameter `0`. -/
theorem c2_bounded_zero :
    (∀ (g : Generator) (tn : TypeName) (m : String),
      gen_type g (tn.withArray (.Limited 0)) m = gen_type g (tn.withArray .Dynamic) m ∧
      gen_const_type g (tn.withArray (.Limited 0)) m = gen_const_type g (tn.withArray .Dynamic) m) ∧
    gen_type g0 (.Type_ "int32" (.Limited 0)) "M" = (g0, [], .ok "safe_drive::msg::I32Seq<0>") ∧
    gen_type g0 (.Type_ "Foo" (.Limited 0)) "M" = (g0, [], .ok "FooSeq<0>") ∧
    gen_type g0 (.String (.Limited 0)) "M" = (g0, [], .ok "safe_drive::msg::RosStringSeq<0, 0>") ∧
    gen_type g0 (.LimitedString 10 (.Limited 0)) "M" = (g0, [], .ok "safe_drive::msg::RosStringSeq<10, 0>") ∧
    gen_type g0 (.ScopedType "std_msgs" "Header" (.Limited 0)) "M" =
      (⟨["std_msgs"], "sensor_msgs", "safe_drive", false⟩, [], .ok "std_msgs::msg::HeaderSeq<0>") := by
  refine ⟨?_, rfl, rfl, rfl, rfl, rfl⟩
  intro g tn m
  cases tn <;> exact ⟨rfl, rfl⟩

/-- C3 counterexample: the bare identifier `byte` lies outside the
claim's 11-member primitive set, yet it does not resolve to a
same-package type named `byte`; it resolves to the primitive `u8`. -/
theorem c3_counterexample :
    gen_type g0 (.Type_ "byte" .NotArray) "M" = (g0, [], .ok "u8") ∧
    ("u8" : String) ≠ "byte" :=
  ⟨rfl, by decide⟩

/-- C3 amended: each of the 11 listed primitive names resolves, under
the scalar shape, to exactly the documented target scalar with no array
wrapper; and every bare identifier outside the full 13-entry primitive
table (the 11 names plus `byte` and `char`) resolves to a type of the
same name in the same package. -/
theorem c3_amended (s : String) (g : Generator) (m : String) (h : s ∉ primitiveNames) :
    (gen_type g (.Type_ "bool" .NotArray) m = (g, [], .ok "bool") ∧
     gen_type g (.Type_ "int8" .NotArray) m = (g, [], .ok "i8") ∧
     gen_type g (.Type_ "uint8" .NotArray) m = (g, [], .ok "u8") ∧
     gen_type g (.Type_ "int16" .NotArray) m = (g, [], .ok "i16") ∧
     gen_type g (.Type_ "uint16" .NotArray) m = (g, [], .ok "u16") ∧
     gen_type g (.Type_ "int32" .NotArray) m = (g, [], .ok "i32") ∧
     gen_type g (.Type_ "uint32" .NotArray) m = (g, [], .ok "u32") ∧
     gen_type g (.Type_ "int64" .NotArray) m = (g, [], .ok "i64") ∧
     gen_type g (.Type_ "uint64" .NotArray) m = (g, [], .ok "u64") ∧
     gen_type g (.Type_ "float32" .NotArray) m = (g, [], .ok "f32") ∧
     gen_type g (.Type_ "float64" .NotArray) m = (g, [], .ok "f64")) ∧
    gen_type g (.Type_ s .NotArray) m = (g, [], .ok s) := by
  constructor
  · exact ⟨rfl, rfl, rfl, rfl, rfl, rfl, rfl, rfl, rfl, rfl, rfl⟩
  · have hn := gen_primitives_eq_none s h
    simp [gen_type, gen_array_type, hn]

/-- C3 witness: `Foo` is outside the primitive table and resolves to a
same-package type of the same name. -/
theorem c3_amended_witness : ("Foo" ∉ primitiveNames) ∧
    gen_type g0 (.Type_ "Foo" .NotArray) "M" = (g0, [], .ok "Foo") :=
  ⟨by decide, (c3_amended "Foo" g0 "M" (by decide)).2⟩

/-- C4: contrary to the claim that parsing has only the two outcomes
(declaration list or structured error), a grammatically valid field
line whose default value is a double-quoted string literal drives
`parse_variable` into its `todo!()` arm, a Rust panic. -/
theorem c4_eval : parse_msg ("string s \"abc\"".data) = POut.panic := rfl

/-- C5: a record whose declarations are all named constants (no fields)
is emitted with exactly one placeholder byte field line
`    _unused: u8`; this holds for message types, and a service whose
Request and Response halves are both field-less gets exactly one
placeholder in each half (two placeholder lines in the emitted file). -/
theorem c5_placeholder (g1 g2 : Generator) (module t : String)
    (exprs req resp : List Expr)
    (h1 : ∀ e ∈ exprs, isConstExpr e = true)
    (h2 : ∀ e ∈ req, isConstExpr e = true)
    (h3 : ∀ e ∈ resp, isConstExpr e = true) :
    (∀ lines, (gen_msg g1 module t exprs).2.2 = .ok lines →
       lines.count placeholderField = 1) ∧
    (∀ lines, (gen_srv g2 module t req resp).2.2 = .ok lines →
       lines.count placeholderField = 2) := by
  constructor
  · intro lines hl
    simp only [gen_msg] at hl
    split at hl
    · simp at hl
    · rename_i g' ws cs vs heq
      simp only [Except.ok.injEq] at hl
      subst hl
      have shape := gen_exprs_shape exprs g1 t _ _ _ _ heq
      have hvs : vs = [] := shape.2 h1
      subst hvs
      have nm_uses : placeholderField ∉ gen_msg_uses g1 :=
        fun hm => absurd (gen_msg_uses_head g1 _ hm) (by decide)
      have nm_cs : placeholderField ∉ cs :=
        fun hm => absurd (shape.1 _ hm) (by decide)
      have nm_cf : placeholderField ∉ [gen_cfun_msg module t] := by
        intro hm
        rw [List.mem_singleton] at hm
        exact ph_ne _ '\n' (by (repeat apply head_append_of_head); rfl) (by decide) hm
      have nm_L4 : placeholderField ∉
          ["", "#[repr(C)]", "#[derive(Debug)]", "pub struct " ++ (t ++ " \x7b")] := by
        intro hm
        simp only [List.mem_cons, List.not_mem_nil, or_false] at hm
        rcases hm with hm | hm | hm | hm
        · exact absurd hm (by decide)
        · exact absurd hm (by decide)
        · exact absurd hm (by decide)
        · exact ph_ne _ 'p' (by (repeat apply head_append_of_head); rfl) (by decide) hm
      have nm_Y : placeholderField ∉
          ("\x7d" :: gen_impl_and_seq_msg module t) := by
        intro hm
        simp only [gen_impl_and_seq_msg, List.mem_cons, List.not_mem_nil, or_false] at hm
        rcases hm with hm | hm | hm
        · exact absurd hm (by decide)
        · exact ph_ne _ '\n' (by (repeat apply head_append_of_head); rfl) (by decide) hm
        · exact ph_ne _ '\n' (by (repeat apply head_append_of_head); rfl) (by decide) hm
      simp only [List.isEmpty_nil, if_true]
      rw [List.count_cons_of_ne (by decide), count_skip _ _ nm_uses,
          count_skip _ _ nm_cs, count_skip _ _ nm_cf, count_skip _ _ nm_L4,
          List.singleton_append, List.count_cons_self,
          List.count_eq_zero.mpr nm_Y]
  · intro lines hl
    simp only [gen_srv] at hl
    split at hl
    · simp at hl
    · rename_i g' ws cs1 vs1 heq1
      split at hl
      · simp at hl
      · rename_i g'' ws' cs2 vs2 heq2
        simp only [Except.ok.injEq] at hl
        subst hl
        have shape1 := gen_exprs_shape req g2 t _ _ _ _ heq1
        have shape2 := gen_exprs_shape resp g' t _ _ _ _ heq2
        have hvs1 : vs1 = [] := shape1.2 h2
        have hvs2 : vs2 = [] := shape2.2 h3
        subst hvs1
        subst hvs2
        have nm_uses : placeholderField ∉ gen_srv_uses g2 :=
          fun hm => absurd (gen_srv_uses_head g2 _ hm) (by decide)
        have nm_cs : placeholderField ∉ (cs1 ++ cs2) := by
          intro hm
          rcases List.mem_append.1 hm with hm | hm
          · exact absurd (shape1.1 _ hm) (by decide)
          · exact absurd (shape2.1 _ hm) (by decide)
        have nm_cf : placeholderField ∉ [gen_cfun_srv module t] := by
          intro hm
          rw [List.mem_singleton] at hm
          exact ph_ne _ '\n' (by (repeat apply head_append_of_head); rfl) (by decide) hm
        have nm_L4 : placeholderField ∉
            ["", "#[repr(C)]", "#[derive(Debug)]", "pub struct " ++ (t ++ "Request \x7b")] := by
          intro hm
          simp only [List.mem_cons, List.not_mem_nil, or_false] at hm
          rcases hm with hm | hm | hm | hm
          · exact absurd hm (by decide)
          · exact absurd hm (by decide)
          · exact absurd hm (by decide)
          · exact ph_ne _ 'p' (by (repeat apply head_append_of_head); rfl) (by decide) hm
        have nm_L4' : placeholderField ∉
            ["", "#[repr(C)]", "#[derive(Debug)]", "pub struct " ++ (t ++ "Response \x7b")] := by
          intro hm
          simp only [List.mem_cons, List.not_mem_nil, or_false] at hm
          rcases hm with hm | hm | hm | hm
          · exact absurd hm (by decide)
          · exact absurd hm (by decide)
          · exact absurd hm (by decide)
          · exact ph_ne _ 'p' (by (repeat apply head_append_of_head); rfl) (by decide) hm
        have nm_brace : placeholderField ∉ ["\x7d"] := by
          intro hm
          rw [List.mem_singleton] at hm
          exact absurd hm (by decide)
        have nm_Y : placeholderField ∉
            ("\x7d" :: gen_impl_and_seq_srv module t) := by
          intro hm
          simp only [gen_impl_and_seq_srv, List.mem_cons, List.not_mem_nil, or_false] at hm
          rcases hm with hm | hm | hm | hm
          · exact absurd hm (by decide)
          · exact ph_ne _ '\n' (by (repeat apply head_append_of_head); rfl) (by decide) hm
          · exact ph_ne _ '\n' (by (repeat apply head_append_of_head); rfl) (by decide) hm
          · exact ph_ne _ '\n' (by (repeat apply head_append_of_head); rfl) (by decide) hm
        simp only [List.isEmpty_nil, if_true]
        rw [List.count_cons_of_ne (by decide), count_skip _ _ nm_uses,
            count_skip _ _ nm_cs, count_skip _ _ nm_cf, count_skip _ _ nm_L4,
            List.singleton_append, List.count_cons_self,
            count_skip _ _ nm_brace, count_skip _ _ nm_L4',
            List.singleton_append, List.count_cons_self,
            List.count_eq_zero.mpr nm_Y]

/-- C5 witness: a message with one constant and no fields gets exactly
one placeholder line; a service with constant-only request and empty
response gets exactly two. -/
theorem c5_placeholder_witness :
    (((gen_msg g0 "demo" "Sample" [c5expr]).2.2.toOption.getD []).count placeholderField = 1) ∧
    (((gen_srv g0 "demo" "Sample" [] [c5expr]).2.2.toOption.getD []).count placeholderField = 2) := by
  constructor
  · exact (c5_placeholder g0 g0 "demo" "Sample" [c5expr] [] [c5expr]
      (by decide) (by simp) (by decide)).1 _ (by rfl)
  · exact (c5_placeholder g0 g0 "demo" "Sample" [c5expr] [] [c5expr]
      (by decide) (by simp) (by decide)).2 _ (by rfl)

/-- C6: contrary to the claim, the `new` constructor emitted for a
sequence wrapper fails whenever `N ≠ 0` and `size ≥ N`, so at `N = 3`,
`size = 3` it returns the absence value without invoking the native
constructor even though the requested size does not exceed `N`.  For
`size < N` and for `N = 0` it defers to the native constructor, and the
null constructor is total. -/
theorem c6_eval :
    seq_new 3 3 (fun _ => some 0) = (none : Option Nat) ∧
    ¬ (3 > 3) ∧
    seq_new 3 2 (fun sz => some sz) = some 2 ∧
    seq_new 0 100 (fun sz => some sz) = some 100 ∧
    seq_null (0 : Nat) = 0 := by
  refine ⟨?_, by decide, ?_, ?_, rfl⟩ <;> simp [seq_new]

/-- C7 counterexample: a bounded-string (`string<=10`) constant is
emitted with exactly the same owning `RosString<10>` representation as
a field of that type — not with the borrowed byte view `&[u8]`. -/
theorem c7_counterexample :
    gen_const_type g0 (.LimitedString 10 .NotArray) "M" =
      gen_type g0 (.LimitedString 10 .NotArray) "M" ∧
    (gen_const_type g0 (.LimitedString 10 .NotArray) "M").2.2 =
      .ok "safe_drive::msg::RosString<10>" ∧
    ("safe_drive::msg::RosString<10>" : String) ≠ "&[u8]" :=
  ⟨rfl, rfl, by decide⟩

/-- C7 amended: only unbounded-string constants are emitted with the
borrowed byte view `&[u8]` (with the constant value rendered as a byte
literal); bounded-string constants use the same owning representation
as fields. -/
theorem c7_amended : ∀ (g : Generator) (m : String) (n : Nat),
    gen_const_type g (.String .NotArray) m = (g, [], .ok "&[u8]") ∧
    gen_const_type g (.LimitedString n .NotArray) m = gen_type g (.LimitedString n .NotArray) m ∧
    gen_expr g0 (.Variable (.String .NotArray) "CONST" (some (.Const (.String "hi"))) none) "M" =
      (g0, [], .ok (.Const "pub const CONST: &[u8] = b\"hi\x00\";")) := by
  intro g m n
  exact ⟨rfl, rfl, rfl⟩

/-- C8: round-trip of string-constant escapes.  Parsing a double-quoted
literal made of the supported escapes (`\\`, `\"`, `\r`, `\n`, `\t`)
and verbatim characters stores the value in escaped form (which is what
the emitted `b"…\0"` constant shows), and decoding those escape
sequences reproduces exactly the characters the original literal
denotes. -/
theorem c8_roundtrip (ts : List Tok) (rest : List Char)
    (h : ∀ t ∈ ts, chrOk t = true) :
    parse_string ('"' :: (encToks ts ++ '"' :: rest)) =
      .ok rest (Value.String ⟨encToks ts⟩) ∧
    rustDecode (encToks ts) = ts.map valTok := by
  constructor
  · have hl := ps_loop_stores ts rest "" h
    simpa [parse_string, one_of, pbind] using hl
  · exact rustDecode_encToks ts h

/-- C8 witness: the literal `"a\\\"\r\n\tz"` (as escape tokens) parses
to the escaped stored form and decodes back to the denoted characters. -/
theorem c8_roundtrip_witness :
    parse_string ('"' :: (encToks [Tok.chr 'a', Tok.back, Tok.quot, Tok.cr, Tok.nl, Tok.tab, Tok.chr 'z'] ++ '"' :: ['x'])) =
      .ok ['x'] (Value.String ⟨['a', '\\', '\\', '\\', '"', '\\', 'r', '\\', 'n', '\\', 't', 'z']⟩) ∧
    rustDecode ['a', '\\', '\\', '\\', '"', '\\', 'r', '\\', 'n', '\\', 't', 'z'] =
      ['a', '\\', '"', '\r', '\n', '\t', 'z'] := by
  have h := c8_roundtrip [Tok.chr 'a', Tok.back, Tok.quot, Tok.cr, Tok.nl, Tok.tab, Tok.chr 'z'] ['x'] (by decide)
  exact ⟨h.1, h.2⟩

/-- C9: whenever `parse_msg` succeeds, the remaining-input component of
the result is the empty string — the loop only returns success after
consuming the entire input. -/
theorem c9_consumes_all : ∀ (i rest : List Char) (l : List Expr),
    parse_msg i = .ok rest l → rest = [] :=
  fun i rest l h => parse_msg_loop_rest _ i [] rest l h

/-- C9 witness: `int32 a` parses successfully with empty rest. -/
theorem c9_consumes_all_witness :
    parse_msg ("int32 a".data) =
      .ok [] [Expr.Variable (.Type_ "int32" .NotArray) "a" none none] ∧
    ([] : List Char) = [] :=
  ⟨rfl, c9_consumes_all ("int32 a".data) [] _ rfl⟩

/-- C10: `byte` and `char` are recognised as primitives (`u8` and `i8`
respectively), the primitive lookup table has exactly 13 entries, and a
field typed `byte` or `char` resolves to the scalar, never to a
same-package named type. -/
theorem c10_byte_char :
    gen_primitives "byte" = some "u8" ∧
    gen_primitives "char" = some "i8" ∧
    primitiveNames.length = 13 ∧
    (∀ s : String, (gen_primitives s).isSome = true ↔ s ∈ primitiveNames) ∧
    (∀ (g : Generator) (m : String),
      gen_type g (.Type_ "byte" .NotArray) m = (g, [], .ok "u8") ∧
      gen_type g (.Type_ "char" .NotArray) m = (g, [], .ok "i8")) :=
  ⟨rfl, rfl, rfl, gen_primitives_isSome_iff, fun _ _ => ⟨rfl, rfl⟩⟩

end R2M
